import Mathlib

/-!
Shallow embedding of the AlarmGenie alarm application's core logic:
the notification scheduler and timing validator
(src/alarm-app/src/services/NotificationService.js), the alarm / dismissal-code
repository (AlarmStorage, src/unnamed/part_000), the dismissal code generator
(src/alarm-app/src/services/MistralService.js) and the dismissal session screen
logic (DismissAlarmScreen, src/unnamed/part_004).

JavaScript `Date` values are modelled by the fields the code actually reads:
the absolute epoch-milliseconds value (`getTime`, used by relational
comparison of dates), the local hour and minute (`getHours`, `getMinutes`)
and the day of week (`getDay`).  Stores persisted through AsyncStorage are
modelled as total maps from alarm id to an optional record.
-/

namespace AlarmGenie

/-- The fields of a JavaScript `Date` that the alarm code reads. -/
structure JSDate where
  /-- `getTime()` in milliseconds; also used by `<=` on dates. -/
  absMs : Int
  /-- `getHours()` -/
  hour : Nat
  /-- `getMinutes()` -/
  minute : Nat
  /-- `getDay()`, 0–6 with Sunday 0 -/
  dow : Nat
deriving DecidableEq

/-- `d.setDate(d.getDate() + 1)`: same clock time one day later. -/
def JSDate.addOneDay (d : JSDate) : JSDate :=
  { d with absMs := d.absMs + 86400000, dow := (d.dow + 1) % 7 }

/-- The `frequency` field of an alarm record: `'once' | 'daily' | 'weekly'`. -/
inductive Frequency
  | once
  | daily
  | weekly
deriving DecidableEq

/-- An alarm record as stored by AlarmStorage (src/unnamed/part_000). -/
structure Alarm where
  id : Nat
  time : JSDate
  label : String
  frequency : Frequency
  /-- ringing duration in minutes -/
  duration : Nat
  isActive : Bool
  /-- the schedule handle returned by the notification scheduler; `none` models JS `null`/absent -/
  notificationId : Option Nat
deriving DecidableEq

/-!
## Timing Validator
`NotificationService.validateAlarmTiming`
(src/alarm-app/src/services/NotificationService.js lines 190–237).
-/

/-- `NotificationService.validateAlarmTiming`: given the loaded alarm record
(`none` when `AlarmStorage.getAlarm` found nothing) and the current time,
decide whether the fired notification is genuinely due.
For `once` alarms the source returns `true` unconditionally
("trusting OS scheduling"); for `daily`/`weekly` it compares integer
minutes-of-day against the literal tolerance `1.5`. -/
def validateAlarmTiming (alarm? : Option Alarm) (now : JSDate) : Bool :=
  match alarm? with
  | none => false
  | some alarm =>
    if !alarm.isActive then false
    else
      match alarm.frequency with
      | Frequency.once =>
          -- "For one-time alarms, trust the OS scheduling …" — returns true
          true
      | Frequency.daily =>
          let nowMinutes := now.hour * 60 + now.minute
          let alarmMinutes := alarm.time.hour * 60 + alarm.time.minute
          let diff := ((nowMinutes : Int) - (alarmMinutes : Int)).natAbs
          -- source: `diff <= 1.5`; `diff` is a whole number of minutes, so this
          -- is the integer comparison `2 * diff ≤ 3`
          decide (2 * diff ≤ 3)
      | Frequency.weekly =>
          let nowDay := now.dow
          let alarmDay := alarm.time.dow
          let nowMinutes := now.hour * 60 + now.minute
          let alarmMinutes := alarm.time.hour * 60 + alarm.time.minute
          let timeDiff := ((nowMinutes : Int) - (alarmMinutes : Int)).natAbs
          -- source: `nowDay === alarmDay && timeDiff <= 1.5`
          nowDay == alarmDay && decide (2 * timeDiff ≤ 3)

/-!
## Notification Scheduler
`NotificationService.scheduleAlarm`
(src/alarm-app/src/services/NotificationService.js lines 21–91); we embed the
trigger computation, which is the part with logic.
-/

/-- The `trigger` object passed to `scheduleNotificationAsync`. -/
inductive Trigger
  | dateTrigger (date : JSDate)
  | dailyTrigger (hour minute : Nat)
  | weeklyTrigger (weekday hour minute : Nat)
deriving DecidableEq

/-- The trigger computed by `NotificationService.scheduleAlarm`.
For `once`: `if (scheduledTime <= now) scheduledTime.setDate(getDate() + 1)`,
then a one-shot date trigger.  For `daily`/`weekly`: repeating calendar
triggers built from the alarm time's clock fields (weekday is `getDay() + 1`). -/
def scheduleAlarmTrigger (alarm : Alarm) (now : JSDate) : Trigger :=
  match alarm.frequency with
  | Frequency.once =>
      let scheduledTime :=
        if alarm.time.absMs ≤ now.absMs then alarm.time.addOneDay else alarm.time
      Trigger.dateTrigger scheduledTime
  | Frequency.daily =>
      Trigger.dailyTrigger alarm.time.hour alarm.time.minute
  | Frequency.weekly =>
      Trigger.weeklyTrigger (alarm.time.dow + 1) alarm.time.hour alarm.time.minute

/-!
## Alarm Repository: dismissal-code records
`AlarmStorage` (src/unnamed/part_000).  The `@dismissal_codes` AsyncStorage
blob is a JS object keyed by alarm id; we model it as a total map from alarm
id to an optional record.  The alarms blob is a JS array of alarm records.
-/

/-- A stored dismissal-code record.  `MistralService.generateDismissalCode`
produces `code`, `timestamp` and `expiresAt`; `AlarmStorage.saveDismissalCode`
adds `createdAt` and `attempts`. -/
structure CodeRecord where
  code : String
  timestamp : Nat
  expiresAt : Nat
  createdAt : Nat
  attempts : Nat
deriving DecidableEq

/-- The persisted `@dismissal_codes` map, keyed by alarm id. -/
def CodeStore : Type := Nat → Option CodeRecord

/-- `AlarmStorage.saveDismissalCode(alarmId, codeData)`: stores
`{ ...codeData, createdAt: Date.now(), attempts: 0 }` under `alarmId`.
The spread means any `attempts`/`createdAt` carried by `codeData` is
overwritten. -/
def saveDismissalCode (s : CodeStore) (alarmId : Nat) (codeData : CodeRecord)
    (now : Nat) : CodeStore :=
  fun x => if x = alarmId then some { codeData with createdAt := now, attempts := 0 }
           else s x

/-- `AlarmStorage.getDismissalCode(alarmId)`: `codes[alarmId] || null`. -/
def getDismissalCode (s : CodeStore) (alarmId : Nat) : Option CodeRecord :=
  s alarmId

/-- `AlarmStorage.removeDismissalCode(alarmId)`: `delete codes[alarmId]`. -/
def removeDismissalCode (s : CodeStore) (alarmId : Nat) : CodeStore :=
  fun x => if x = alarmId then none else s x

/-- `AlarmStorage.incrementCodeAttempts(alarmId)`: when a record exists,
set `attempts = (attempts || 0) + 1`, persist, and return the new count;
otherwise return `0` without writing anything.  The result is the returned
count paired with the persisted store. -/
def incrementCodeAttempts (s : CodeStore) (alarmId : Nat) : Nat × CodeStore :=
  match s alarmId with
  | some r =>
      let r' := { r with attempts := r.attempts + 1 }
      (r'.attempts, fun x => if x = alarmId then some r' else s x)
  | none => (0, s)

/-!
## Alarm Repository: toggling alarms
Two revisions of `AlarmStorage.toggleAlarm` exist in the repository:
the one in src/unnamed/part_000 (lines 307–337), which schedules/cancels the
notification and maintains `notificationId`, and the one embedded in
src/alarm-app/src/services/NotificationService.js (lines 304–315), which
merely flips `isActive`.
-/

/-- Replace the first alarm whose `id` matches (the JS code mutates the single
object found by `alarms.find(...)` and then saves the whole array). -/
def replaceFirst (alarms : List Alarm) (alarmId : Nat) (a : Alarm) : List Alarm :=
  match alarms with
  | [] => []
  | b :: rest => if b.id = alarmId then a :: rest else b :: replaceFirst rest alarmId a

/-- The outcome of `AlarmStorage.toggleAlarm` in src/unnamed/part_000:
`stored` is the alarms array held in AsyncStorage afterwards and `threw`
records whether the operation propagated an exception.  External effects are
parameters: `schedOutcome = none` models `NotificationService.scheduleAlarm`
throwing, otherwise the fresh handle it returns; `cancelOk`/`saveOk` model
`cancelAlarm`/`saveAlarms` succeeding.  On any throw, `saveAlarms` is never
reached, so the stored array is unchanged. -/
structure ToggleResult where
  stored : List Alarm
  threw : Bool
deriving DecidableEq

/-- `AlarmStorage.toggleAlarm(alarmId)` from src/unnamed/part_000:
find the alarm; when turning on, schedule a notification and store the fresh
handle; when turning off, cancel any existing handle and clear it to `null`;
then flip `isActive` and save. -/
def toggleAlarm (alarms : List Alarm) (alarmId : Nat)
    (schedOutcome : Option Nat) (cancelOk saveOk : Bool) : ToggleResult :=
  match alarms.find? (fun a => a.id = alarmId) with
  | none => { stored := alarms, threw := false }
  | some a =>
      if !a.isActive then
        -- turning on: notificationId = scheduleAlarm({...alarm, isActive: true})
        match schedOutcome with
        | none => { stored := alarms, threw := true }
        | some nid =>
            if !saveOk then { stored := alarms, threw := true }
            else
              { stored := replaceFirst alarms alarmId
                  { a with notificationId := some nid, isActive := true },
                threw := false }
      else
        -- turning off: cancel existing handle (if any), clear it, deactivate
        match a.notificationId with
        | some _ =>
            if !cancelOk then { stored := alarms, threw := true }
            else if !saveOk then { stored := alarms, threw := true }
            else
              { stored := replaceFirst alarms alarmId
                  { a with notificationId := none, isActive := false },
                threw := false }
        | none =>
            if !saveOk then { stored := alarms, threw := true }
            else
              { stored := replaceFirst alarms alarmId
                  { a with notificationId := none, isActive := false },
                threw := false }

/-- `AlarmStorage.toggleAlarm(alarmId)` from the revision embedded in
src/alarm-app/src/services/NotificationService.js (lines 304–315):
`alarms.map(a => a.id === alarmId ? { ...a, isActive: !a.isActive } : a)` —
the schedule handle is not touched. -/
def toggleAlarmFlipOnly (alarms : List Alarm) (alarmId : Nat) : List Alarm :=
  alarms.map (fun a => if a.id = alarmId then { a with isActive := !a.isActive } else a)

/-- The spec invariant: `isActive == (scheduleHandle != null)`. -/
def alarmInvariant (a : Alarm) : Prop :=
  a.isActive = a.notificationId.isSome

instance (a : Alarm) : Decidable (alarmInvariant a) := by
  unfold alarmInvariant; infer_instance

/-- `AlarmStorage.updateAlarm(alarmId, updates)` from src/unnamed/part_000:
`alarms.map(a => a.id === alarmId ? { ...a, ...updates } : a)`; the spread of
the updates object is modelled by the function `updates`. -/
def updateAlarm (alarms : List Alarm) (alarmId : Nat) (updates : Alarm → Alarm) :
    List Alarm :=
  alarms.map (fun a => if a.id = alarmId then updates a else a)

/-!
## Code Generator
`MistralService` (src/alarm-app/src/services/MistralService.js).
-/

/-- The generation alphabet: `'ABCDEFGHIJKLMNOPQRSTUVWXYZ0123456789'`
(36 symbols). -/
def characters : String := "ABCDEFGHIJKLMNOPQRSTUVWXYZ0123456789"

/-- `MistralService.generateSecureCode`: 8 characters drawn from
`characters`.  `entropy` is the list of character codes of
`Date.now().toString() + Math.random().toString(36) + Math.random().toString(36)`;
`randoms` are the values `Math.floor(Math.random() * characters.length)`
(each in `[0, 36)`).  `characters.length` is the literal 36 below. -/
def generateSecureCode (entropy : List Nat) (randoms : Fin 8 → Fin 36) : String :=
  String.mk ((List.finRange 8).map (fun i =>
    let seedIndex := (entropy.getD (i.val % entropy.length) 0 + i.val) % 36
    let finalIndex := (seedIndex + (randoms i).val) % 36
    characters.toList.getD finalIndex 'A'))

/-- The record returned by `MistralService.generateDismissalCode`. -/
structure GeneratedCode where
  code : String
  timestamp : Nat
  expiresAt : Nat
deriving DecidableEq

/-- `MistralService.generateDismissalCode`: generate a secure code locally and
return it with `timestamp: Date.now()` and
`expiresAt: Date.now() + 10 * 60 * 1000`.  `rand1`/`rand2` are the character
codes of the two `Math.random().toString(36)` strings feeding the entropy. -/
def generateDismissalCode (now : Nat) (rand1 rand2 : List Nat)
    (randoms : Fin 8 → Fin 36) : GeneratedCode :=
  let entropy := ((toString now).toList.map Char.toNat) ++ rand1 ++ rand2
  { code := generateSecureCode entropy randoms
    timestamp := now
    expiresAt := now + 10 * 60 * 1000 }

/-- `MistralService.isValidCode`: `/^[A-Z0-9]{8}$/.test(code)` — exactly 8
characters, each an uppercase letter (code points 65–90) or digit (48–57). -/
def isValidCode (code : String) : Bool :=
  code.length == 8 &&
    code.toList.all (fun c =>
      (65 ≤ c.toNat && c.toNat ≤ 90) || (48 ≤ c.toNat && c.toNat ≤ 57))

/-!
## Dismissal Session
`DismissAlarmScreen` (src/unnamed/part_004): the ringing session's submit and
timeout handlers.  The session-level state machine of the spec
(`Initializing → Ringing → {Success, TimedOut}`) is recorded in `phase`:
`success` corresponds to the "Alarm Dismissed" alert and navigation back to
the alarm list, `timedOut` to the "Alarm Timeout" alert, and `ringing` to the
screen staying up with sound/vibration/countdown running.
-/

/-- Session phase, the spec's state-machine states. -/
inductive SessionPhase
  | initializing
  | ringing
  | success
  | timedOut
deriving DecidableEq

/-- What `handleSubmit` reports to the user (which alert is shown). -/
inductive SubmitOutcome
  /-- `newAttempts > 5`: "Maximum Attempts Exceeded", submission rejected
  before the code comparison. -/
  | maxAttemptsExceeded
  /-- correct code: "Alarm Dismissed". -/
  | dismissed
  /-- wrong code with `newAttempts >= 5`: "Too Many Failed Attempts". -/
  | wrongExhausted
  /-- wrong code with attempts remaining: "Incorrect Code, n attempts remaining". -/
  | wrongRemaining (remaining : Nat)
deriving DecidableEq

/-- Observable effects of the session handlers, in program order. -/
inductive Event
  /-- `incrementCodeAttempts` wrote the incremented count to AsyncStorage. -/
  | attemptsPersisted (n : Nat)
  /-- `stopAlarm()`: audio unloaded and vibration cancelled. -/
  | ringingStopped
  /-- `removeDismissalCode` deleted the stored code record. -/
  | codeRecordRemoved
  /-- `NotificationService.cancelAlarm(nid)` was called. -/
  | cancelledNotification (nid : Nat)
  /-- `updateAlarm(alarmId, { isActive: false, notificationId: null })` ran. -/
  | alarmDeactivated
  /-- an alert reporting the submission outcome was shown. -/
  | reportedOutcome (o : SubmitOutcome)
  /-- the "Alarm Timeout" alert was shown. -/
  | reportedTimeout
deriving DecidableEq

/-- Whitespace as trimmed by JS `String.prototype.trim` (restricted to the
ASCII whitespace characters: space, tab, LF, VT, FF, CR). -/
def isJsSpace (c : Char) : Bool :=
  c.toNat = 32 || c.toNat = 9 || c.toNat = 10 || c.toNat = 11 || c.toNat = 12 || c.toNat = 13

/-- JS `String.prototype.trim`: drop whitespace from both ends. -/
def jsTrim (s : String) : String :=
  String.mk (((s.toList.dropWhile isJsSpace).reverse.dropWhile isJsSpace).reverse)

/-- JS `String.prototype.toUpperCase` on one character (ASCII range, which is
all the dismissal-code input alphabet uses). -/
def jsToUpperChar (c : Char) : Char :=
  if 97 ≤ c.toNat ∧ c.toNat ≤ 122 then Char.ofNat (c.toNat - 32) else c

/-- JS `String.prototype.toUpperCase`. -/
def jsToUpper (s : String) : String :=
  String.mk (s.toList.map jsToUpperChar)

/-- The React component state of `DismissAlarmScreen` that the handlers read. -/
structure SessionState where
  phase : SessionPhase
  /-- the `userInput` text field -/
  userInput : String
  /-- the `attempts` display state -/
  attempts : Nat
  /-- the `dismissalCodeData` state (copy of the stored record loaded at init) -/
  codeData : CodeRecord
  /-- the `alarm` state (`AlarmStorage.getAlarm` result from init) -/
  alarm : Option Alarm

/-- The persisted stores the handlers touch. -/
structure Stores where
  alarms : List Alarm
  codes : CodeStore

/-- `DismissAlarmScreen.handleSubmit` (src/unnamed/part_004 lines 206–259).
Returns the component state, the stores, and the trace of observable effects
in program order. -/
def handleSubmit (alarmId : Nat) (st : SessionState) (stores : Stores) :
    SessionState × Stores × List Event :=
  -- const newAttempts = await AlarmStorage.incrementCodeAttempts(alarmId)
  let inc := incrementCodeAttempts stores.codes alarmId
  let newAttempts := inc.1
  let persistTrace : List Event :=
    match stores.codes alarmId with
    | some _ => [Event.attemptsPersisted newAttempts]
    | none => []
  let st := { st with attempts := newAttempts }
  let stores := { stores with codes := inc.2 }
  if newAttempts > 5 then
    -- Alert "Maximum Attempts Exceeded"; return before comparing
    (st, stores, persistTrace ++ [Event.reportedOutcome SubmitOutcome.maxAttemptsExceeded])
  else if jsToUpper (jsTrim st.userInput) = st.codeData.code then
    -- stopAlarm(); remove code record; for once-alarms cancel + deactivate
    let codes := removeDismissalCode stores.codes alarmId
    let onceEffects : List Alarm × List Event :=
      match st.alarm with
      | some a =>
          if a.frequency = Frequency.once then
            (updateAlarm stores.alarms alarmId
               (fun b => { b with isActive := false, notificationId := none }),
             (match a.notificationId with
              | some nid => [Event.cancelledNotification nid]
              | none => []) ++ [Event.alarmDeactivated])
          else (stores.alarms, [])
      | none => (stores.alarms, [])
    ({ st with phase := SessionPhase.success },
     { alarms := onceEffects.1, codes := codes },
     persistTrace ++ [Event.ringingStopped, Event.codeRecordRemoved] ++ onceEffects.2
       ++ [Event.reportedOutcome SubmitOutcome.dismissed])
  else
    -- wrong code: clear the input, report
    let st := { st with userInput := "" }
    if newAttempts ≥ 5 then
      (st, stores, persistTrace ++ [Event.reportedOutcome SubmitOutcome.wrongExhausted])
    else
      (st, stores,
       persistTrace ++ [Event.reportedOutcome (SubmitOutcome.wrongRemaining (5 - newAttempts))])

/-- `DismissAlarmScreen.handleTimeout` (src/unnamed/part_004 lines 188–198):
`stopAlarm()`, show the "Alarm Timeout" alert, and on OK remove the dismissal
code record and navigate back.  The alarm records themselves are not touched. -/
def handleTimeout (alarmId : Nat) (st : SessionState) (stores : Stores) :
    SessionState × Stores × List Event :=
  ({ st with phase := SessionPhase.timedOut },
   { stores with codes := removeDismissalCode stores.codes alarmId },
   [Event.ringingStopped, Event.reportedTimeout, Event.codeRecordRemoved])

/-!
## Concrete inputs used by witnesses and counterexamples
-/

/-- An active `once` alarm whose time is far (hours) from the probe time. -/
def onceAlarmFar : Alarm :=
  { id := 1, time := ⟨0, 7, 0, 1⟩, label := "far", frequency := Frequency.once,
    duration := 5, isActive := true, notificationId := some 3 }

/-- An active `once` alarm used to witness the amended C2 statement. -/
def onceAlarmNear : Alarm :=
  { id := 2, time := ⟨60000, 8, 30, 2⟩, label := "near", frequency := Frequency.once,
    duration := 10, isActive := true, notificationId := some 4 }

/-- An active `daily` alarm at 07:00 (scenario A). -/
def dailyAlarm7 : Alarm :=
  { id := 3, time := ⟨25200000, 7, 0, 4⟩, label := "wake", frequency := Frequency.daily,
    duration := 5, isActive := true, notificationId := some 11 }

/-- A `once` alarm whose absolute time is more than a day in the past. -/
def onceAlarmOld : Alarm :=
  { id := 4, time := ⟨0, 0, 0, 4⟩, label := "old", frequency := Frequency.once,
    duration := 5, isActive := true, notificationId := none }

/-- A `once` alarm 300000 ms (5 minutes) before the probe time `⟨300000, …⟩`. -/
def onceAlarmPast5 : Alarm :=
  { id := 5, time := ⟨0, 0, 0, 4⟩, label := "past5", frequency := Frequency.once,
    duration := 5, isActive := true, notificationId := none }

/-- An active alarm holding schedule handle 7 (satisfies the invariant). -/
def activeAlarmWithHandle : Alarm :=
  { id := 6, time := ⟨0, 7, 0, 1⟩, label := "", frequency := Frequency.daily,
    duration := 5, isActive := true, notificationId := some 7 }

/-- An inactive alarm with no handle (satisfies the invariant). -/
def inactiveAlarmNoHandle : Alarm :=
  { id := 7, time := ⟨0, 7, 0, 1⟩, label := "", frequency := Frequency.daily,
    duration := 5, isActive := false, notificationId := none }

/-- A stored code record with no failed attempts. -/
def freshCodeRec : CodeRecord :=
  { code := "ABCD1234", timestamp := 0, expiresAt := 600000, createdAt := 0,
    attempts := 0 }

/-- A stored code record after four failed attempts. -/
def codeRecAfter4 : CodeRecord :=
  { code := "ABCD1234", timestamp := 0, expiresAt := 600000, createdAt := 0,
    attempts := 4 }

/-- A stored code record after five failed attempts. -/
def codeRecAfter5 : CodeRecord :=
  { code := "ABCD1234", timestamp := 0, expiresAt := 600000, createdAt := 0,
    attempts := 5 }

/-- An active `once` alarm with a pending schedule handle, ringing in C1's and
C4's scenarios. -/
def onceAlarmRinging : Alarm :=
  { id := 8, time := ⟨0, 7, 0, 1⟩, label := "ring", frequency := Frequency.once,
    duration := 5, isActive := true, notificationId := some 99 }

/-- Session state at the 5th wrong submission: four failed attempts persisted,
the wrong text `"WRONGCOD"` typed. -/
def sessionWrong5 : SessionState :=
  { phase := SessionPhase.ringing, userInput := "WRONGCOD", attempts := 4,
    codeData := codeRecAfter4, alarm := some onceAlarmRinging }

/-- Stores backing `sessionWrong5`. -/
def storesWrong5 : Stores :=
  { alarms := [onceAlarmRinging],
    codes := fun x => if x = 8 then some codeRecAfter4 else none }

/-- Session state after five persisted wrong submissions, with the correct
code now typed. -/
def sessionCorrect6 : SessionState :=
  { phase := SessionPhase.ringing, userInput := "ABCD1234", attempts := 5,
    codeData := codeRecAfter5, alarm := some onceAlarmRinging }

/-- Stores backing `sessionCorrect6`. -/
def storesCorrect6 : Stores :=
  { alarms := [onceAlarmRinging],
    codes := fun x => if x = 8 then some codeRecAfter5 else none }

/-- A ringing session whose countdown is about to reach zero. -/
def sessionAtTimeout : SessionState :=
  { phase := SessionPhase.ringing, userInput := "", attempts := 2,
    codeData := freshCodeRec, alarm := some onceAlarmRinging }

/-- Stores backing `sessionAtTimeout`. -/
def storesAtTimeout : Stores :=
  { alarms := [onceAlarmRinging],
    codes := fun x => if x = 8 then some freshCodeRec else none }

/-- A code store holding a single record for alarm 8, used by C7's witness. -/
def singleCodeStore : CodeStore :=
  fun x => if x = 8 then some freshCodeRec else none

/-- The empty code store. -/
def emptyCodeStore : CodeStore := fun _ => none

/-!
## Helper lemmas
-/

/-- Every index below 36 picks an uppercase letter or digit out of the
generation alphabet. -/
lemma characters_getD_valid : ∀ k, k < 36 →
    ((65 ≤ (characters.toList.getD k 'A').toNat &&
        (characters.toList.getD k 'A').toNat ≤ 90) ||
      (48 ≤ (characters.toList.getD k 'A').toNat &&
        (characters.toList.getD k 'A').toNat ≤ 57)) = true := by
  decide

/-- Membership in `replaceFirst` comes from the original list or is the
replacement. -/
lemma mem_replaceFirst {l : List Alarm} {alarmId : Nat} {a b : Alarm}
    (h : b ∈ replaceFirst l alarmId a) : b ∈ l ∨ b = a := by
  induction l with
  | nil =>
    unfold replaceFirst at h
    exact absurd h (List.not_mem_nil _)
  | cons x xs ih =>
    unfold replaceFirst at h
    split at h
    · rcases List.mem_cons.mp h with h1 | h1
      · right; exact h1
      · left; exact List.mem_cons_of_mem _ h1
    · rcases List.mem_cons.mp h with h1 | h1
      · left; simp [h1]
      · rcases ih h1 with h2 | h2
        · left; exact List.mem_cons_of_mem _ h2
        · right; exact h2

/-- `generateSecureCode` always yields 8 symbols of the alphabet, so the
format validator accepts it. -/
lemma isValidCode_generateSecureCode (entropy : List Nat) (randoms : Fin 8 → Fin 36) :
    isValidCode (generateSecureCode entropy randoms) = true := by
  unfold isValidCode generateSecureCode
  rw [Bool.and_eq_true]
  constructor
  · rfl
  · rw [List.all_eq_true]
    intro c hc
    simp only [String.toList, String.mk] at hc
    rw [List.mem_map] at hc
    obtain ⟨i, -, rfl⟩ := hc
    exact characters_getD_valid _ (Nat.mod_lt _ (by norm_num))

/-!
## Claims
-/

/-- **C9** — For every `alarmId` and every `codeData`, after
`AlarmStorage.saveDismissalCode(alarmId, codeData)` the stored record for
`alarmId` has `attempts = 0`, regardless of any attempts value in `codeData`:
the spread `{ ...codeData, createdAt: Date.now(), attempts: 0 }` always resets
the persisted counter. -/
theorem saveDismissalCode_resets_attempts (s : CodeStore) (alarmId : Nat)
    (codeData : CodeRecord) (now : Nat) :
    ∃ r, getDismissalCode (saveDismissalCode s alarmId codeData now) alarmId = some r
      ∧ r.attempts = 0 := by
  refine ⟨{ codeData with createdAt := now, attempts := 0 }, ?_, rfl⟩
  simp [getDismissalCode, saveDismissalCode]

/-- **C10** — When no dismissal-code record is stored for `alarmId`,
`AlarmStorage.incrementCodeAttempts(alarmId)` returns 0 and leaves the stored
code map untouched: no record is created and no other alarm's record changes. -/
theorem incrementCodeAttempts_missing_record (s : CodeStore) (alarmId : Nat)
    (h : s alarmId = none) :
    incrementCodeAttempts s alarmId = (0, s) := by
  simp [incrementCodeAttempts, h]

/-- Witness for **C10**: the empty store has no record for alarm 1, and
incrementing there returns 0 with the store unchanged. -/
theorem incrementCodeAttempts_missing_record_witness :
    emptyCodeStore 1 = none ∧
      incrementCodeAttempts emptyCodeStore 1 = (0, emptyCodeStore) :=
  ⟨rfl, incrementCodeAttempts_missing_record emptyCodeStore 1 rfl⟩

/-- **C8** — Every value returned by `MistralService.generateDismissalCode`
satisfies the contract: its `code` passes `isValidCode`
(exactly 8 uppercase alphanumeric characters), and its `expiresAt` equals its
issue `timestamp` plus 10 minutes (600000 ms). -/
theorem generateDismissalCode_contract (now : Nat) (rand1 rand2 : List Nat)
    (randoms : Fin 8 → Fin 36) :
    isValidCode (generateDismissalCode now rand1 rand2 randoms).code = true ∧
    (generateDismissalCode now rand1 rand2 randoms).expiresAt =
      (generateDismissalCode now rand1 rand2 randoms).timestamp + 10 * 60 * 1000 :=
  ⟨isValidCode_generateSecureCode _ _, rfl⟩

/-- **C7** — On every code submission in a ringing session holding a stored
code record, `handleSubmit`'s very first observable effect is persisting the
incremented attempt counter; the comparison's reported outcome comes strictly
later in the trace, so a crash in between never loses an attempt. -/
theorem handleSubmit_persists_attempt_first (alarmId : Nat)
    (st : SessionState) (stores : Stores) (r : CodeRecord)
    (h : stores.codes alarmId = some r) :
    ∃ rest, (handleSubmit alarmId st stores).2.2
        = Event.attemptsPersisted (r.attempts + 1) :: rest ∧
      ∃ o, Event.reportedOutcome o ∈ rest := by
  simp only [handleSubmit, incrementCodeAttempts, h]
  split
  · exact ⟨_, rfl, SubmitOutcome.maxAttemptsExceeded, by simp⟩
  · split
    · exact ⟨_, rfl, SubmitOutcome.dismissed, by simp⟩
    · split
      · exact ⟨_, rfl, SubmitOutcome.wrongExhausted, by simp⟩
      · exact ⟨_, rfl, SubmitOutcome.wrongRemaining (4 - r.attempts), by simp⟩

/-- Witness for **C7**: a submission against the store holding `freshCodeRec`
for alarm 8 persists attempt count 1 before reporting. -/
theorem handleSubmit_persists_attempt_first_witness :
    singleCodeStore 8 = some freshCodeRec ∧
    ∃ rest,
      (handleSubmit 8 sessionAtTimeout { alarms := [onceAlarmRinging], codes := singleCodeStore }).2.2
          = Event.attemptsPersisted (freshCodeRec.attempts + 1) :: rest ∧
        ∃ o, Event.reportedOutcome o ∈ rest :=
  ⟨rfl, handleSubmit_persists_attempt_first 8 sessionAtTimeout
    { alarms := [onceAlarmRinging], codes := singleCodeStore } freshCodeRec rfl⟩

/-- Counterexample to **C2** — for an existing, active `once` alarm the
validator returns `true` even though `|now − alarm.time|` is far beyond any
1.5–2-minute tolerance (here over 2 hours, i.e. more than `2 * 60000` ms),
so "due iff within tolerance" is false as stated. -/
theorem validateOnce_counterexample :
    validateAlarmTiming (some onceAlarmFar) ⟨10000000, 2, 46, 1⟩ = true ∧
    onceAlarmFar.isActive = true ∧ onceAlarmFar.frequency = Frequency.once ∧
    2 * 60000 < ((10000000 : Int) - onceAlarmFar.time.absMs).natAbs := by
  decide

/-- **C2 (amended)** — For every existing alarm with frequency `once` and
`isActive` true, `validateAlarmTiming` returns `true` unconditionally
("trusting OS scheduling"); no tolerance comparison is made for `once`
alarms. -/
theorem validateOnce_always_true (a : Alarm) (now : JSDate)
    (hact : a.isActive = true) (hfreq : a.frequency = Frequency.once) :
    validateAlarmTiming (some a) now = true := by
  simp [validateAlarmTiming, hact, hfreq]

/-- Witness for the amended **C2**: `onceAlarmNear` is active and `once`, and
the validator accepts it at an arbitrary probe time. -/
theorem validateOnce_always_true_witness :
    onceAlarmNear.isActive = true ∧ onceAlarmNear.frequency = Frequency.once ∧
    validateAlarmTiming (some onceAlarmNear) ⟨999999999, 23, 59, 6⟩ = true :=
  ⟨rfl, rfl, validateOnce_always_true onceAlarmNear ⟨999999999, 23, 59, 6⟩ rfl rfl⟩

/-- Counterexample to **C5** — for the active `daily` alarm at 07:00, the
validator at 06:58 (a 2-minute difference) returns **false**, because the
source compares the integer minute difference to the constant `1.5`; the
claim says 06:58 is due. -/
theorem dailyAt0658_counterexample :
    validateAlarmTiming (some dailyAlarm7) ⟨25080000, 6, 58, 4⟩ = false := by
  decide

/-- **C5 (amended)** — For the `daily` alarm at 07:00, the validator returns
due at 06:59 (difference 1 ≤ 1.5) and not due at both 06:58 and 06:55
(differences 2 and 5 exceed 1.5). -/
theorem dailyTolerance_amended :
    validateAlarmTiming (some dailyAlarm7) ⟨25140000, 6, 59, 4⟩ = true ∧
    validateAlarmTiming (some dailyAlarm7) ⟨25080000, 6, 58, 4⟩ = false ∧
    validateAlarmTiming (some dailyAlarm7) ⟨24900000, 6, 55, 4⟩ = false := by
  decide

/-- Counterexample to **C6** — a `once` alarm whose time lies 25 hours in the
past is rolled forward by exactly one day, which still lies at or before
`now`: the scheduled fire is **not** "never in the past". -/
theorem scheduleOnceStale_counterexample :
    scheduleAlarmTrigger onceAlarmOld ⟨90000000, 1, 0, 5⟩
      = Trigger.dateTrigger onceAlarmOld.time.addOneDay ∧
    onceAlarmOld.time.absMs ≤ (90000000 : Int) ∧
    onceAlarmOld.time.addOneDay.absMs ≤ (90000000 : Int) := by
  decide

/-- **C6 (amended)** — For a `once` alarm: if `alarm.time` is at or before
`now`, the scheduler produces a one-shot trigger at the same clock time one
day later, and that instant is strictly in the future provided `alarm.time`
is less than 24 hours in the past (in particular for a time 5 minutes in the
past); if `alarm.time` is still in the future, the trigger is at that exact
instant. -/
theorem scheduleOnce_amended (a : Alarm) (now : JSDate)
    (hfreq : a.frequency = Frequency.once) :
    (a.time.absMs ≤ now.absMs →
       scheduleAlarmTrigger a now = Trigger.dateTrigger a.time.addOneDay ∧
       (now.absMs - a.time.absMs < 86400000 →
          now.absMs < a.time.addOneDay.absMs)) ∧
    (now.absMs < a.time.absMs →
       scheduleAlarmTrigger a now = Trigger.dateTrigger a.time) := by
  constructor
  · intro hle
    refine ⟨by simp [scheduleAlarmTrigger, hfreq, hle], ?_⟩
    intro hlt
    simp only [JSDate.addOneDay]
    omega
  · intro hlt
    simp [scheduleAlarmTrigger, hfreq, not_le.mpr hlt]

/-- Witness for the amended **C6**: the alarm 5 minutes in the past (time 0,
now 300000 ms) is `once`; it is rolled to one day later, which is in the
future, and a future alarm stays at its exact instant. -/
theorem scheduleOnce_amended_witness :
    onceAlarmPast5.frequency = Frequency.once ∧
    (onceAlarmPast5.time.absMs ≤ (300000 : Int) →
       scheduleAlarmTrigger onceAlarmPast5 ⟨300000, 0, 5, 4⟩
           = Trigger.dateTrigger onceAlarmPast5.time.addOneDay ∧
       ((300000 : Int) - onceAlarmPast5.time.absMs < 86400000 →
          (300000 : Int) < onceAlarmPast5.time.addOneDay.absMs)) ∧
    ((300000 : Int) < onceAlarmPast5.time.absMs →
       scheduleAlarmTrigger onceAlarmPast5 ⟨300000, 0, 5, 4⟩
           = Trigger.dateTrigger onceAlarmPast5.time) :=
  ⟨rfl, (scheduleOnce_amended onceAlarmPast5 ⟨300000, 0, 5, 4⟩ rfl).1,
    (scheduleOnce_amended onceAlarmPast5 ⟨300000, 0, 5, 4⟩ rfl).2⟩

/-- Counterexample to **C3** — the `toggleAlarm` revision embedded in
src/alarm-app/src/services/NotificationService.js merely flips `isActive`:
toggling off an active alarm holding schedule handle 7 leaves the handle in
place, so afterwards `isActive = false` while `scheduleHandle ≠ null` and the
invariant `isActive == (scheduleHandle != null)` is broken. -/
theorem toggleFlipOnly_counterexample :
    alarmInvariant activeAlarmWithHandle ∧
    toggleAlarmFlipOnly [activeAlarmWithHandle] 6
      = [{ activeAlarmWithHandle with isActive := false }] ∧
    ¬ alarmInvariant { activeAlarmWithHandle with isActive := false } := by
  decide

/-- **C3 (amended)** — The `AlarmStorage.toggleAlarm` of src/unnamed/part_000
preserves the invariant `isActive == (scheduleHandle != null)` on every
stored alarm, for every outcome of the external scheduler / canceller / save
(including failures partway, which leave the store untouched): toggling on
stores a fresh non-null handle, toggling off cancels and clears it to null.
The flip-only revision of toggleAlarm embedded in NotificationService.js does
not maintain the handle, so the invariant does not survive that revision. -/
theorem toggleAlarm_preserves_invariant (alarms : List Alarm) (alarmId : Nat)
    (schedOutcome : Option Nat) (cancelOk saveOk : Bool)
    (hinv : ∀ a ∈ alarms, alarmInvariant a) :
    ∀ a ∈ (toggleAlarm alarms alarmId schedOutcome cancelOk saveOk).stored,
      alarmInvariant a := by
  intro a ha
  unfold toggleAlarm at ha
  split at ha
  · exact hinv a ha
  · split at ha
    · -- turning on
      split at ha
      · exact hinv a ha
      · split at ha
        · exact hinv a ha
        · rcases mem_replaceFirst ha with hmem | rfl
          · exact hinv a hmem
          · simp [alarmInvariant]
    · -- turning off
      split at ha
      · split at ha
        · exact hinv a ha
        · split at ha
          · exact hinv a ha
          · rcases mem_replaceFirst ha with hmem | rfl
            · exact hinv a hmem
            · simp [alarmInvariant]
      · split at ha
        · exact hinv a ha
        · rcases mem_replaceFirst ha with hmem | rfl
          · exact hinv a hmem
          · simp [alarmInvariant]

/-- Witness for the amended **C3**: toggling the inactive handle-free alarm on
(fresh handle 9) yields a store whose single alarm is active with handle 9,
satisfying the invariant. -/
theorem toggleAlarm_preserves_invariant_witness :
    (∀ a ∈ [inactiveAlarmNoHandle], alarmInvariant a) ∧
    alarmInvariant { inactiveAlarmNoHandle with isActive := true, notificationId := some 9 } :=
  ⟨by decide,
    toggleAlarm_preserves_invariant [inactiveAlarmNoHandle] 7 (some 9) true true
      (by decide)
      { inactiveAlarmNoHandle with isActive := true, notificationId := some 9 }
      (by decide)⟩

/-- Counterexample to **C4** — `handleTimeout` for a ringing session on the
active `once` alarm (holding schedule handle 99) leaves the alarm array
completely unchanged: the alarm stays `isActive = true` with its handle,
contradicting "a 'once' alarm becomes isActive=false with
scheduleHandle=null"; no reschedule-vs-deactivate policy runs. -/
theorem timeout_keeps_alarm_counterexample :
    (handleTimeout 8 sessionAtTimeout storesAtTimeout).2.1.alarms = [onceAlarmRinging] ∧
    onceAlarmRinging.frequency = Frequency.once ∧
    onceAlarmRinging.isActive = true ∧
    onceAlarmRinging.notificationId = some 99 := by
  decide

/-- **C4 (amended)** — When the countdown reaches 0 with no successful
submission, the session transitions to TimedOut, the ringing activities stop,
the DismissalCode record is deleted, and the timeout is reported — but no
reschedule-vs-deactivate policy is applied: the stored alarm records are left
exactly as they were, for `once` and recurring alarms alike. -/
theorem timeout_behaviour (alarmId : Nat) (st : SessionState) (stores : Stores) :
    (handleTimeout alarmId st stores).1.phase = SessionPhase.timedOut ∧
    (handleTimeout alarmId st stores).2.1.codes alarmId = none ∧
    (handleTimeout alarmId st stores).2.1.alarms = stores.alarms ∧
    (handleTimeout alarmId st stores).2.2
      = [Event.ringingStopped, Event.reportedTimeout, Event.codeRecordRemoved] := by
  refine ⟨rfl, ?_, rfl, rfl⟩
  simp [handleTimeout, removeDismissalCode]

/-- **C1** — evaluation at the failing input.  After five wrong submissions
(stored `attempts = 5`), the fifth wrong submission's alert promised the
alarm "will continue until time runs out or the correct code is entered";
yet a sixth submission of the **correct** code is rejected before any
comparison: `handleSubmit` increments to 6, reports Maximum Attempts
Exceeded, leaves the session Ringing, and never transitions to Success —
the attempt cap does block a later correct submission. -/
theorem attemptCap_blocks_correct_submission :
    -- the 5th wrong submission: persisted count 5, "attempts exhausted" alert
    (handleSubmit 8 sessionWrong5 storesWrong5).2.2
      = [Event.attemptsPersisted 5,
         Event.reportedOutcome SubmitOutcome.wrongExhausted] ∧
    (handleSubmit 8 sessionWrong5 storesWrong5).1.phase = SessionPhase.ringing ∧
    -- the next submission carries the correct code…
    jsToUpper (jsTrim sessionCorrect6.userInput) = sessionCorrect6.codeData.code ∧
    -- …but is blocked before comparison and does not succeed
    (handleSubmit 8 sessionCorrect6 storesCorrect6).2.2
      = [Event.attemptsPersisted 6,
         Event.reportedOutcome SubmitOutcome.maxAttemptsExceeded] ∧
    (handleSubmit 8 sessionCorrect6 storesCorrect6).1.phase = SessionPhase.ringing ∧
    (handleSubmit 8 sessionCorrect6 storesCorrect6).2.1.codes 8
      = some { codeRecAfter5 with attempts := 6 } := by
  decide

end AlarmGenie
